import Mathlib

/-!
Verification of the tbox_computer configuration engine.

This file gives a shallow embedding of the compatibility / performance
estimation core of the repository (src/computer_configurator.py and
src/mcp_server.py) and proves or refutes the frozen claims about it.

Modelling conventions:
* Python/JSON values are modelled by the inductive `JValue`; Python strings
  are lists of characters (`Str`).
* Python float arithmetic is idealised as exact rational arithmetic (`ℚ`);
  decimal literals such as `0.8` are the exact rationals `4/5` etc.  All
  verified claims are about the structure of the computation, branch
  conditions on small literals, and orderings which are insensitive to this
  idealisation.
* Python exceptions are modelled with `Except Unit`: each operation that can
  raise (attribute access on a non-dict, `.lower()` on a non-string,
  arithmetic or comparison on a non-number, `in` on a non-container,
  indexing, division by zero) returns `Except.error ()`; the `try/except`
  blocks at the boundaries of the source functions catch the error and turn
  it into the structured error result, exactly as the Python code does.
  Error message strings produced by the source (which embed `str(e)` and the
  offending values) are modelled as tagged constructors carrying the
  interpolated values where those are plain strings or numbers.
* `json.loads` (the only piece of behaviour taken from the Python standard
  library rather than this repository) is passed in as an explicit
  parameter `parse : Str → Option JValue`; `none` models a decode failure.
-/

/-- Python strings, modelled as lists of characters. -/
abbrev Str := List Char

/-- Shorthand turning a Lean string literal into a `Str`. -/
def toS (s : String) : Str := s.data

/-- ASCII lower-casing of one character (Python `str.lower` restricted to the
alphabets actually used by the source's comparisons). -/
def lowerChar (c : Char) : Char :=
  if c = 'A' then 'a' else if c = 'B' then 'b' else if c = 'C' then 'c'
  else if c = 'D' then 'd' else if c = 'E' then 'e' else if c = 'F' then 'f'
  else if c = 'G' then 'g' else if c = 'H' then 'h' else if c = 'I' then 'i'
  else if c = 'J' then 'j' else if c = 'K' then 'k' else if c = 'L' then 'l'
  else if c = 'M' then 'm' else if c = 'N' then 'n' else if c = 'O' then 'o'
  else if c = 'P' then 'p' else if c = 'Q' then 'q' else if c = 'R' then 'r'
  else if c = 'S' then 's' else if c = 'T' then 't' else if c = 'U' then 'u'
  else if c = 'V' then 'v' else if c = 'W' then 'w' else if c = 'X' then 'x'
  else if c = 'Y' then 'y' else if c = 'Z' then 'z' else c

/-- ASCII upper-casing of one character (Python `str.upper`). -/
def upperChar (c : Char) : Char :=
  if c = 'a' then 'A' else if c = 'b' then 'B' else if c = 'c' then 'C'
  else if c = 'd' then 'D' else if c = 'e' then 'E' else if c = 'f' then 'F'
  else if c = 'g' then 'G' else if c = 'h' then 'H' else if c = 'i' then 'I'
  else if c = 'j' then 'J' else if c = 'k' then 'K' else if c = 'l' then 'L'
  else if c = 'm' then 'M' else if c = 'n' then 'N' else if c = 'o' then 'O'
  else if c = 'p' then 'P' else if c = 'q' then 'Q' else if c = 'r' then 'R'
  else if c = 's' then 'S' else if c = 't' then 'T' else if c = 'u' then 'U'
  else if c = 'v' then 'V' else if c = 'w' then 'W' else if c = 'x' then 'X'
  else if c = 'y' then 'Y' else if c = 'z' then 'Z' else c

/-- Python `s.lower()`. -/
def lowerStr (s : Str) : Str := s.map lowerChar

/-- Python `s.upper()`. -/
def upperStr (s : Str) : Str := s.map upperChar

/-- Python `s.startswith(pat)`. -/
def strStarts : Str → Str → Bool
  | _, [] => true
  | [], _ :: _ => false
  | c :: cs, p :: ps => c == p && strStarts cs ps

/-- Python `pat in s` for strings: substring containment. -/
def strContains : Str → Str → Bool
  | [], pat => pat.isEmpty
  | c :: cs, pat => strStarts (c :: cs) pat || strContains cs pat

/-- JSON-shaped Python values: the value universe over which the two server
functions receive their `configuration` argument. -/
inductive JValue where
  | null
  | bool (b : Bool)
  | num (q : ℚ)
  | str (s : Str)
  | arr (xs : List JValue)
  | obj (kvs : List (Str × JValue))

/-- Python truthiness (`if x:`). -/
def JValue.truthy : JValue → Bool
  | .null => false
  | .bool b => b
  | .num q => q != 0
  | .str s => !s.isEmpty
  | .arr xs => !xs.isEmpty
  | .obj kvs => !kvs.isEmpty

/-- Numeric view of a value: Python arithmetic and comparisons accept ints,
floats and bools (`True == 1`, `False == 0`) and raise `TypeError` on
anything else. -/
def JValue.asNumQ : JValue → Option ℚ
  | .num q => some q
  | .bool b => some (if b then 1 else 0)
  | _ => none

/-- Dictionary lookup (`d[k]` on a dict whose keys are strings). -/
def jGet (kvs : List (Str × JValue)) (k : Str) : Option JValue :=
  (kvs.find? (fun kv => kv.1 == k)).map (·.2)

/-- Python `d.get(k, dflt)` on a value known to be a dict. -/
def jGetOn (kvs : List (Str × JValue)) (k : Str) (dflt : JValue) : JValue :=
  (jGet kvs k).getD dflt

/-- Python `v.get(k, dflt)`: raises `AttributeError` when `v` is not a
dict. -/
def jGetD (v : JValue) (k : Str) (dflt : JValue) : Except Unit JValue :=
  match v with
  | .obj kvs => .ok (jGetOn kvs k dflt)
  | _ => .error ()

/-- `v.get(k, dflt) if isinstance(v, dict) else dflt` — the guarded access
pattern used throughout `mcp_server.py`; never raises. -/
def guardedGetD (v : JValue) (k : Str) (dflt : JValue) : JValue :=
  match v with
  | .obj kvs => jGetOn kvs k dflt
  | _ => dflt

/-- Python `v.lower()`: raises when `v` is not a string. -/
def pyLowerJ : JValue → Except Unit Str
  | .str s => .ok (lowerStr s)
  | _ => .error ()

/-- Python `v.upper()`: raises when `v` is not a string. -/
def pyUpperJ : JValue → Except Unit Str
  | .str s => .ok (upperStr s)
  | _ => .error ()

/-- Numeric coercion used at arithmetic/comparison sites: raises
`TypeError` on non-numbers.  (Python corner cases such as `list * int`
replication or `list < list` lexicographic comparison are modelled as a
raise as well; no verified claim is sensitive to them since both roads lead
into the enclosing `except` handler or to a non-empty issue list.) -/
def asNumQE (v : JValue) : Except Unit ℚ :=
  match v.asNumQ with
  | some q => .ok q
  | none => .error ()

/- Deep equality of values, mutually recursive through lists and objects.
Deviations from Python: dict equality is modelled order-sensitively and
cross-typed corner equalities beyond bool/number are not modelled; no claim
exercises these corners. -/
mutual
def jEq : JValue → JValue → Bool
  | .null, .null => true
  | .bool a, .bool b => a == b
  | .bool a, .num b => (if a then (1 : ℚ) else 0) == b
  | .num a, .bool b => a == (if b then (1 : ℚ) else 0)
  | .num a, .num b => a == b
  | .str a, .str b => a == b
  | .arr a, .arr b => jEqList a b
  | .obj a, .obj b => jEqObj a b
  | _, _ => false
def jEqList : List JValue → List JValue → Bool
  | [], [] => true
  | x :: xs, y :: ys => jEq x y && jEqList xs ys
  | _, _ => false
def jEqObj : List (Str × JValue) → List (Str × JValue) → Bool
  | [], [] => true
  | (k, v) :: xs, (k', v') :: ys => k == k' && jEq v v' && jEqObj xs ys
  | _, _ => false
end

/-- Python `needle in container` for an arbitrary needle: substring test on
strings (string needle required), membership by equality on lists, key
membership on dicts (unhashable needles raise), `TypeError` otherwise. -/
def pyInJ (needle container : JValue) : Except Unit Bool :=
  match container with
  | .str s =>
      match needle with
      | .str t => .ok (strContains s t)
      | _ => .error ()
  | .arr xs => .ok (xs.any (fun x => jEq needle x))
  | .obj kvs =>
      match needle with
      | .arr _ | .obj _ => .error ()
      | .str t => .ok (kvs.any (fun kv => kv.1 == t))
      | _ => .ok false
  | _ => .error ()

/-- Python `"lit" in container` with a string literal needle. -/
def pyInS (needle : Str) (container : JValue) : Except Unit Bool :=
  pyInJ (.str needle) container

/-- Python `v[0]`: first element of a list, first character of a string;
raises on empty sequences, dicts (string-keyed) and non-subscriptables. -/
def pyIndex0 : JValue → Except Unit JValue
  | .arr (x :: _) => .ok x
  | .str (c :: _) => .ok (.str [c])
  | _ => .error ()

/-- If the value is a bare string, wrap it as `{"name": s}` — the
normalisation applied by `mcp_server.py` to each component. -/
def strWrap (v : JValue) : JValue :=
  match v with
  | .str s => .obj [(toS "name", .str s)]
  | _ => v

/-- Floor of a rational, computably (`Int` division by the positive
denominator). -/
def ratFloor (q : ℚ) : ℤ := q.num / q.den

lemma ratFloor_eq (q : ℚ) : ratFloor q = ⌊q⌋ := Rat.floor_def.symm

/-- Python `int(x)` on a float: truncation toward zero. -/
def pyInt (q : ℚ) : ℤ := if 0 ≤ q then ratFloor q else -(ratFloor (-q))

/-- Python `round(x)` on a float: round half to even. -/
def pyRound (q : ℚ) : ℤ :=
  let f := ratFloor q
  let r := q - (f : ℚ)
  if r < 1/2 then f
  else if 1/2 < r then f + 1
  else if f % 2 = 0 then f else f + 1

/-- A digit character. -/
def digToNat : Char → Option ℕ
  | c => if 48 ≤ c.toNat ∧ c.toNat ≤ 57 then some (c.toNat - 48) else none

/-- Decimal digit run to a natural number; `none` when empty or non-digit. -/
def natOfDigits (ds : Str) : Option ℕ :=
  if ds.isEmpty then none
  else ds.foldl (fun acc c => acc.bind (fun a => (digToNat c).map (fun d => a * 10 + d))) (some 0)

/-- Strip leading/trailing spaces. -/
def stripSpaces (s : Str) : Str :=
  ((s.dropWhile (· == ' ')).reverse.dropWhile (· == ' ')).reverse

/-- Python `int(s)` on a string: optionally signed decimal literal (models the
common forms; digit-group underscores and exotic whitespace are out of
scope — no verified claim feeds string-typed numeric fields). -/
def intParse (s : Str) : Option ℤ :=
  match stripSpaces s with
  | '-' :: ds => (natOfDigits ds).map (fun n => -(n : ℤ))
  | '+' :: ds => (natOfDigits ds).map (fun n => (n : ℤ))
  | ds => (natOfDigits ds).map (fun n => (n : ℤ))

/-- Unsigned decimal float body `digits[.digits]`. -/
def floatBody (s : Str) : Option ℚ :=
  let ip := s.takeWhile (fun c => !(c == '.'))
  let rest := s.dropWhile (fun c => !(c == '.'))
  match rest with
  | [] => (natOfDigits ip).map (fun n => (n : ℚ))
  | _ :: frac =>
      if frac.any (· == '.') then none
      else if ip.isEmpty && frac.isEmpty then none
      else
        match (if ip.isEmpty then some 0 else natOfDigits ip),
              (if frac.isEmpty then some 0 else natOfDigits frac) with
        | some a, some b => some ((a : ℚ) + (b : ℚ) / ((10 : ℚ) ^ frac.length))
        | _, _ => none

/-- Python `float(s)`: optionally signed decimal literal (exponent and
special forms out of scope, as for `intParse`). -/
def floatParse (s : Str) : Option ℚ :=
  match stripSpaces s with
  | '-' :: rest => (floatBody rest).map Neg.neg
  | '+' :: rest => floatBody rest
  | rest => floatBody rest

/-- `if isinstance(x, str): try: x = int(x) except ValueError: x = dflt` —
the string-to-int coercion pattern of `mcp_server.py`. -/
def coerceIntStr (v : JValue) (dflt : ℚ) : JValue :=
  match v with
  | .str s =>
      match intParse s with
      | some n => .num (n : ℚ)
      | none => .num dflt
  | _ => v

/-- The same pattern with `float`. -/
def coerceFloatStr (v : JValue) (dflt : ℚ) : JValue :=
  match v with
  | .str s =>
      match floatParse s with
      | some q => .num q
      | none => .num dflt
  | _ => v

/-- Issue tags: each constructor corresponds to one literal issue message of
the source, carrying the values interpolated into that message where they
are strings or numbers. -/
inductive Issue where
  | socketMismatch (cpuSocket mbSocket : Str)
  | vendorMismatch
  | memoryIncompatStr (support memType : Str)
  | memoryIncompatList
  | caseTooSmall (caseFF mbFF : Str)
  | gpuTooLong (gpuLen caseMax : ℚ)
  | checkError
  | mcpInputNone
  | mcpNotParsable
  | mcpNotDict
  | mcpIntelOnAmd
  | mcpAmdOnIntel
  | mcpMemTypeUnsupported
  | mcpCapacityExceeded (total maxMem : ℚ)
  | mcpCheckError
deriving DecidableEq

/-- Warning tags, with the interpolated values. -/
inductive Warning where
  | powerInsufficient (draw : ℚ) (recommended : ℤ)
  | memFreqHigh (freq maxFreq : ℚ)
deriving DecidableEq

/-- The result shape of both compatibility checkers. -/
structure CompatResult where
  compatible : Bool
  issues : List Issue
  warnings : List Warning
deriving DecidableEq

/-- Qualitative labels: 流畅 / 一般 / 卡顿 / 高画质流畅 / 中画质流畅 / 低画质. -/
inductive Recommendation where
  | smooth
  | fair
  | choppy
  | highSmooth
  | midSmooth
  | lowQuality
deriving DecidableEq

/-- One scenario entry of `performance_scores`. -/
structure ScenEntry where
  score : ℤ
  recommendation : Recommendation
deriving DecidableEq

/-- Error tags of the performance estimators. -/
inductive PerfError where
  | isNone
  | notParsable
  | notDict
  | evalError
deriving DecidableEq

/-- The result shape of both performance estimators; the Python success dict
has no `error` key, modelled by `error = none`. -/
structure PerfResult where
  error : Option PerfError
  performance_scores : List (Str × ScenEntry)
  overall_rating : ℤ
deriving DecidableEq

/-- Result of `get_compatibility_score`. -/
structure ScoreResult where
  compatibility_score : ℤ
  details : CompatResult
deriving DecidableEq

/-! ## Shared performance-scenario machinery

The scenario loop (`for scenario in scenarios: if scenario == "办公软件": …`)
is textually identical in `computer_configurator.estimate_performance` and
`mcp_server._estimate_performance_internal`; it is defined once here and
used by both embeddings. -/

def officeS : Str := toS "办公软件"

def webS : Str := toS "网页浏览"

def g1080S : Str := toS "1080p游戏"

def g1440S : Str := toS "1440p游戏"

def g4kS : Str := toS "4k游戏"

def videoS : Str := toS "视频编辑"

/-- The default scenario list of both estimators, which is also exactly the
set of scenario names recognised by the loop. -/
def defaultScenarios : List Str := [officeS, webS, g1080S, g1440S, g4kS, videoS]

/-- A scenario name is recognised when it is one of the six the loop
handles. -/
def isRecognized (s : Str) : Bool :=
  s == officeS || s == webS || s == g1080S || s == g1440S || s == g4kS || s == videoS

/-- Insertion into a Python dict modelled as an ordered association list:
overwriting keeps the original position, new keys append. -/
def dictInsert (d : List (Str × ScenEntry)) (k : Str) (v : ScenEntry) :
    List (Str × ScenEntry) :=
  if d.any (fun kv => kv.1 == k) then
    d.map (fun kv => if kv.1 == k then (k, v) else kv)
  else d ++ [(k, v)]

/-- `{"score": min(100, round(score)), "recommendation": label}`. -/
def mkEntry (q : ℚ) (r : Recommendation) : ScenEntry := ⟨min 100 (pyRound q), r⟩

/-- The label ladder shared by the three gaming scenarios. -/
def gameLabel (q : ℚ) : Recommendation :=
  if q > 80 then .highSmooth else if q > 60 then .midSmooth
  else if q > 40 then .lowQuality else .choppy

/-- One iteration of the scenario loop: the `if/elif` chain on the scenario
name; unrecognised names leave the dict unchanged.  The labels are computed
from the unclamped blended score, the stored score is clamped at 100. -/
def scenarioStep (c m g : ℚ) (d : List (Str × ScenEntry)) (s : Str) :
    List (Str × ScenEntry) :=
  if s = officeS then
    let q := (c * (3/5) + m * (2/5)) / 10
    dictInsert d s (mkEntry q (if q > 50 then .smooth else if q > 30 then .fair else .choppy))
  else if s = webS then
    let q := (c * (3/10) + m * (7/10)) / 10
    dictInsert d s (mkEntry q (if q > 60 then .smooth else if q > 40 then .fair else .choppy))
  else if s = g1080S then
    let q := (c * (3/10) + g * (7/10)) / 20
    dictInsert d s (mkEntry q (gameLabel q))
  else if s = g1440S then
    let q := (c * (3/10) + g * (7/10)) / 25
    dictInsert d s (mkEntry q (gameLabel q))
  else if s = g4kS then
    let q := (c * (3/10) + g * (7/10)) / 35
    dictInsert d s (mkEntry q (gameLabel q))
  else if s = videoS then
    let q := (c * (2/5) + m * (3/10) + g * (3/10)) / 15
    dictInsert d s (mkEntry q (if q > 70 then .smooth else if q > 50 then .fair else .choppy))
  else d

/-- The scenario loop, starting from the empty dict. -/
def scenarioLoop (c m g : ℚ) (scenarios : List Str) : List (Str × ScenEntry) :=
  scenarios.foldl (scenarioStep c m g) []

/-- `sum(v["score"] for v in performance_scores.values()) // len(...)` —
Python floor division; only evaluated on a non-empty dict (the empty case
raises `ZeroDivisionError` into the handler). -/
def overallRating (entries : List (Str × ScenEntry)) : ℤ :=
  Int.fdiv (entries.foldl (fun a kv => a + kv.2.score) 0) entries.length

/-- The error result every `except` branch of the estimators produces. -/
def estErr : PerfResult := ⟨some .evalError, [], 0⟩

namespace Configurator

/-! ## computer_configurator.py — check_compatibility (lines 260–397) -/

/-- The CPU-family → compatible-socket/chipset table (lines 280–292). -/
def socketFamilies : List (Str × List Str) :=
  [ (toS "am4", [toS "am4", toS "b350", toS "b450", toS "x370", toS "x470", toS "x570"]),
    (toS "am5", [toS "am5", toS "b650", toS "x670"]),
    (toS "trx4", [toS "trx4", toS "wrx40"]),
    (toS "lga1151", [toS "lga1151", toS "h110", toS "b150", toS "z170", toS "h170", toS "q170", toS "q150"]),
    (toS "lga1155", [toS "lga1155", toS "h61", toS "b65", toS "p67", toS "z68", toS "h67"]),
    (toS "lga1150", [toS "lga1150", toS "h81", toS "b85", toS "z87", toS "h87", toS "q87", toS "q85"]),
    (toS "lga1200", [toS "lga1200", toS "h410", toS "b460", toS "z490", toS "h470"]),
    (toS "lga1700", [toS "lga1700", toS "b560", toS "z590", toS "h510", toS "h570", toS "z690", toS "b660", toS "h610", toS "z790"]),
    (toS "lga2066", [toS "lga2066", toS "x299"]) ]

/-- Lines 301–310: the socket rule fires (appends its issue) when no family
matches the lowered sockets and the lowered sockets differ. -/
def socketRuleFires (cpuSocket mbSocket : Str) : Bool :=
  let cs := lowerStr cpuSocket
  let ms := lowerStr mbSocket
  !(socketFamilies.any (fun fam =>
      (strStarts cs fam.1 || fam.2.any (fun x => x == cs)) && fam.2.any (fun x => x == ms))) &&
    !(cs == ms)

/-- Rule 1 (lines 294–310): skipped when either socket field is falsy;
`.lower()` raises when a truthy socket is not a string. -/
def rule1 (cpuSocketJ mbSocketJ : JValue) : Except Unit (Option Issue) :=
  if cpuSocketJ.truthy && mbSocketJ.truthy then
    match cpuSocketJ, mbSocketJ with
    | .str cs, .str ms =>
        .ok (if socketRuleFires cs ms then some (.socketMismatch cs ms) else none)
    | _, _ => .error ()
  else .ok none

/-- Lines 313–314: the vendor cross-check on the lowered CPU name and
lowered motherboard socket. -/
def vendorRuleFires (cpuNameL mbSocketL : Str) : Bool :=
  (strContains cpuNameL (toS "intel") && strContains mbSocketL (toS "amd")) ||
    (strContains cpuNameL (toS "amd") && strContains mbSocketL (toS "intel"))

/-- Rule 2 (lines 312–315): `motherboard_socket.lower()` is only evaluated
(and can only raise) when the CPU name mentions a vendor, thanks to the
`and` short-circuit. -/
def rule2 (cpuNameL : Str) (mbSocketJ : JValue) : Except Unit (Option Issue) :=
  match mbSocketJ with
  | .str ms => .ok (if vendorRuleFires cpuNameL (lowerStr ms) then some .vendorMismatch else none)
  | _ =>
      if strContains cpuNameL (toS "intel") || strContains cpuNameL (toS "amd") then .error ()
      else .ok none

/-- Memory-generation inference from the lowered memory name
(lines 321–329); a miss leaves the original value in place. -/
def inferMemType (orig : JValue) (lowName : Str) : JValue :=
  if strContains lowName (toS "ddr5") then .str (toS "DDR5")
  else if strContains lowName (toS "ddr4") then .str (toS "DDR4")
  else if strContains lowName (toS "ddr3") then .str (toS "DDR3")
  else orig

/-- Motherboard memory-support inference from the lowered board name
(lines 331–339). -/
def inferMbSupport (orig : JValue) (lowName : Str) : JValue :=
  if strContains lowName (toS "b650") || strContains lowName (toS "x670") ||
      strContains lowName (toS "am5") then .str (toS "DDR5")
  else if strContains lowName (toS "b450") || strContains lowName (toS "x470") ||
      strContains lowName (toS "b550") || strContains lowName (toS "x570") then .str (toS "DDR4")
  else if strContains lowName (toS "z87") || strContains lowName (toS "h81") ||
      strContains lowName (toS "b85") then .str (toS "DDR3")
  else orig

/-- `memory_type` resolution: infer from `memory["name"].lower()` only when
the provided value is falsy. -/
def resolveMemType (memory memTypeJ : JValue) : Except Unit JValue :=
  if memTypeJ.truthy then .ok memTypeJ
  else do
    let nameJ ← jGetD memory (toS "name") (.str [])
    let lowName ← pyLowerJ nameJ
    pure (inferMemType memTypeJ lowName)

/-- `memory_support` resolution from the motherboard name, same pattern. -/
def resolveMbSupport (motherboard mbSupportJ : JValue) : Except Unit JValue :=
  if mbSupportJ.truthy then .ok mbSupportJ
  else do
    let nameJ ← jGetD motherboard (toS "name") (.str [])
    let lowName ← pyLowerJ nameJ
    pure (inferMbSupport mbSupportJ lowName)

/-- Line 345: with string support, the rule fires when the uppercased memory
type is not a substring of the uppercased support string. -/
def memoryRuleFires (memType support : Str) : Bool :=
  !(strContains (upperStr support) (upperStr memType))

/-- The `any(memory_type.upper() in s.upper() for s in support)` generator:
evaluated lazily, raising only when it actually reaches a non-string. -/
def anySupMatches (memTypeJ : JValue) : List JValue → Except Unit Bool
  | [] => .ok false
  | s :: rest => do
      let mtU ← pyUpperJ memTypeJ
      let sU ← pyUpperJ s
      if strContains sU mtU then pure true else anySupMatches memTypeJ rest

/-- Rule 3 (lines 342–349): skipped unless both values are truthy; the
`isinstance` chain checks str, then list, and silently skips other types. -/
def rule3 (memTypeJ mbSupportJ : JValue) : Except Unit (Option Issue) :=
  if memTypeJ.truthy && mbSupportJ.truthy then
    match mbSupportJ with
    | .str sup =>
        match memTypeJ with
        | .str mt => .ok (if memoryRuleFires mt sup then some (.memoryIncompatStr sup mt) else none)
        | _ => .error ()
    | .arr sups => do
        let b ← anySupMatches memTypeJ sups
        pure (if b then none else some .memoryIncompatList)
    | _ => .ok none
  else .ok none

/-- `if comp.get("tdp"): total += comp["tdp"]` for one component
(lines 353–356): a falsy tdp is skipped, a truthy non-number raises. -/
def tdpAdd (acc : ℚ) (comp : JValue) : Except Unit ℚ := do
  let t ← jGetD comp (toS "tdp") .null
  if t.truthy then do
    let q ← asNumQE t
    pure (acc + q)
  else pure acc

/-- Estimated total draw: CPU tdp plus GPU tdp. -/
def tdpSum (cpu videoCard : JValue) : Except Unit ℚ := do
  let a ← tdpAdd 0 cpu
  tdpAdd a videoCard

/-- Lines 360–361: the power warning, recommending `int(total/0.8)` watts. -/
def powerWarning (total psu : ℚ) : Option Warning :=
  if psu > 0 ∧ total > psu * (4/5) then
    some (.powerInsufficient total (pyInt (total / (4/5))))
  else none

/-- Rule 4: the comparison `psu_power > 0` raises on a non-numeric rating. -/
def rule4 (total : ℚ) (psuJ : JValue) : Except Unit (Option Warning) := do
  let psu ← asNumQE psuJ
  pure (powerWarning total psu)

/-- The fixed form-factor ordering (lines 368–374); keys are matched with
their exact case. -/
def formFactorHierarchy : List (Str × ℕ) :=
  [ (toS "Mini ITX", 1), (toS "Micro ATX", 2), (toS "ATX", 3),
    (toS "EATX", 4), (toS "XL ATX", 5) ]

/-- `x in form_factor_hierarchy`: exact-case key lookup; unhashable values
(lists/dicts) raise, other non-strings simply miss. -/
def ffRankOf : JValue → Except Unit (Option (Str × ℕ))
  | .str s => .ok (((formFactorHierarchy.find? (fun kv => kv.1 == s)).map (·.2)).map (fun n => (s, n)))
  | .arr _ => .error ()
  | .obj _ => .error ()
  | _ => .ok none

/-- Rule 5 (lines 376–378): the `and` short-circuits, so the motherboard
lookup is only evaluated when the case label is in the table. -/
def rule5 (caseFFJ mbFFJ : JValue) : Except Unit (Option Issue) := do
  let cr ← ffRankOf caseFFJ
  match cr with
  | none => pure none
  | some (cs, c) => do
      let mr ← ffRankOf mbFFJ
      match mr with
      | none => pure none
      | some (ms, m) => pure (if c < m then some (.caseTooSmall cs ms) else none)

/-- Rule 6 (lines 381–385): both comparisons short-circuit left to right. -/
def rule6 (maxLenJ gpuLenJ : JValue) : Except Unit (Option Issue) := do
  let mx ← asNumQE maxLenJ
  if mx > 0 then do
    let gl ← asNumQE gpuLenJ
    pure (if gl > 0 ∧ gl > mx then some (.gpuTooLong gl mx) else none)
  else pure none

/-- The body of `check_compatibility` inside its `try` (lines 262–391),
over a configuration already known to be a dict.  Statements appear in
source order; any raise aborts with `Except.error` into the handler.  The
only `warnings.append` in the source is the power rule, hence the warning
list of the success result is `powerW.toList`. -/
def checkBody (d : List (Str × JValue)) : Except Unit (List Issue × List Warning) := do
  let cpu := jGetOn d (toS "cpu") (.obj [])
  let motherboard := jGetOn d (toS "motherboard") (.obj [])
  let memory := jGetOn d (toS "memory") (.obj [])
  let videoCard := jGetOn d (toS "video-card") (.obj [])
  let powerSupply := jGetOn d (toS "power-supply") (.obj [])
  let caseComp := jGetOn d (toS "case") (.obj [])
  let cpuNameJ ← jGetD cpu (toS "name") (.str [])
  let cpuNameL ← pyLowerJ cpuNameJ
  let cpuSocketJ ← jGetD cpu (toS "socket") (.str [])
  let mbSocketJ ← jGetD motherboard (toS "socket") (.str [])
  let socketIssue ← rule1 cpuSocketJ mbSocketJ
  let vendorIssue ← rule2 cpuNameL mbSocketJ
  let memTypeRaw ← jGetD memory (toS "type") (.str [])
  let mbSupportRaw ← jGetD motherboard (toS "memory_support") (.str [])
  let memTypeJ ← resolveMemType memory memTypeRaw
  let mbSupportJ ← resolveMbSupport motherboard mbSupportRaw
  let memIssue ← rule3 memTypeJ mbSupportJ
  let total ← tdpSum cpu videoCard
  let psuJ ← jGetD powerSupply (toS "power") (.num 0)
  let powerW ← rule4 total psuJ
  let caseFFJ ← jGetD caseComp (toS "form_factor") (.str [])
  let mbFFJ ← jGetD motherboard (toS "form_factor") (.str [])
  let ffIssue ← rule5 caseFFJ mbFFJ
  let maxLenJ ← jGetD caseComp (toS "max_gpu_length") (.num 0)
  let gpuLenJ ← jGetD videoCard (toS "length") (.num 0)
  let lenIssue ← rule6 maxLenJ gpuLenJ
  pure (socketIssue.toList ++ vendorIssue.toList ++ memIssue.toList ++
          ffIssue.toList ++ lenIssue.toList,
        powerW.toList)

/-- `check_compatibility` (lines 260–397): a non-dict configuration raises
`AttributeError` at the first `.get` and, like every other exception, is
caught and reported as a single-issue incompatible result. -/
def check_compatibility (configuration : JValue) : CompatResult :=
  match configuration with
  | .obj d =>
      match checkBody d with
      | .ok (issues, warnings) => ⟨issues.isEmpty, issues, warnings⟩
      | .error _ => ⟨false, [.checkError], []⟩
  | _ => ⟨false, [.checkError], []⟩

end Configurator

namespace Configurator

/-! ## computer_configurator.py — estimate_performance (lines 399–515) -/

/-- The microarchitecture multiplier chain (lines 423–430); each `in` check
can raise on a non-container microarchitecture value, with `or`
short-circuiting. -/
def microMultiplier (microJ : JValue) : Except Unit ℚ := do
  let z ← pyInS (toS "Zen") microJ
  let c1 ← if z then pure true else pyInS (toS "Skylake") microJ
  if c1 then pure (6/5)
  else do
    let p ← pyInS (toS "Piledriver") microJ
    let c2 ← if p then pure true else pyInS (toS "Ivy Bridge") microJ
    if c2 then pure (9/10)
    else do
      let k ← pyInS (toS "K10") microJ
      let c3 ← if k then pure true else pyInS (toS "Core") microJ
      pure (if c3 then (7/10 : ℚ) else 1)

/-- CPU score (lines 414–432): `core_count` defaults to 4, `base_clock` to
3.0, `boost_clock` to the (possibly defaulted) base clock value, then
`cores * ((base + boost) / 2) * 10` scaled by the microarchitecture
multiplier.  Non-numeric field values raise at the arithmetic. -/
def cpuScoreE (cpu : JValue) : Except Unit ℚ := do
  let coresJ ← jGetD cpu (toS "core_count") (.num 4)
  let baseJ ← jGetD cpu (toS "base_clock") (.num 3)
  let boostJ ← jGetD cpu (toS "boost_clock") baseJ
  let microJ ← jGetD cpu (toS "microarchitecture") (.str [])
  let cores ← asNumQE coresJ
  let base ← asNumQE baseJ
  let boost ← asNumQE boostJ
  let mult ← microMultiplier microJ
  pure (cores * ((base + boost) / 2) * 10 * mult)

/-- Memory score (lines 435–440).  The default argument of the `capacity`
lookup — `memory.get("modules", [0])[0] if memory.get("modules") else 8` —
is evaluated eagerly before the lookup, exactly as Python evaluates call
arguments, so a present-but-unsubscriptable `modules` raises even when
`capacity` is present. -/
def memScoreE (memory : JValue) : Except Unit ℚ := do
  let modulesOpt ← match memory with
    | .obj kvs => Except.ok (jGet kvs (toS "modules"))
    | _ => .error ()
  let dfltCap ← match modulesOpt with
    | some m => if m.truthy then pyIndex0 m else pure (JValue.num 8)
    | none => pure (JValue.num 8)
  let capJ ← jGetD memory (toS "capacity") dfltCap
  let freqJ ← jGetD memory (toS "frequency") (.num 3200)
  let cap ← asNumQE capJ
  let freq ← asNumQE freqJ
  pure ((cap / 8) * (freq / 3200) * 100)

/-- GPU multiplier chain (lines 452–463). -/
def gpuMultiplier (chipJ : JValue) : Except Unit ℚ := do
  let a ← pyInS (toS "RTX 40") chipJ
  if a then pure (3/2)
  else do
    let b1 ← pyInS (toS "RTX 30") chipJ
    let b ← if b1 then pure true else pyInS (toS "RX 7") chipJ
    if b then pure (13/10)
    else do
      let c1 ← pyInS (toS "RTX 20") chipJ
      let c ← if c1 then pure true else pyInS (toS "RX 6") chipJ
      if c then pure (11/10)
      else do
        let d1 ← pyInS (toS "GTX 10") chipJ
        let d ← if d1 then pure true else pyInS (toS "RX 5") chipJ
        if d then pure (4/5)
        else do
          let e1 ← pyInS (toS "GTX 9") chipJ
          let e2 ← if e1 then pure true else pyInS (toS "R9") chipJ
          pure (if e2 then (3/5 : ℚ) else 1)

/-- GPU score (lines 443–465): `vram` defaults to the eagerly evaluated
`video_card.get("memory", 6)`, clocks default to 1500 / the core clock. -/
def gpuScoreE (videoCard : JValue) : Except Unit ℚ := do
  let memDflt ← jGetD videoCard (toS "memory") (.num 6)
  let vramJ ← jGetD videoCard (toS "vram") memDflt
  let coreJ ← jGetD videoCard (toS "core_clock") (.num 1500)
  let boostJ ← jGetD videoCard (toS "boost_clock") coreJ
  let chipJ ← jGetD videoCard (toS "chipset") (.str [])
  let vram ← asNumQE vramJ
  let core ← asNumQE coreJ
  let boost ← asNumQE boostJ
  let mult ← gpuMultiplier chipJ
  pure ((vram / 6) * ((core + boost) / 2 / 1000) * 200 * mult)

/-- Extraction of the three component scores from a dict configuration
(lines 405–465); note the `video-card` key spelling of this file. -/
def perfExtract (d : List (Str × JValue)) : Except Unit (ℚ × ℚ × ℚ) := do
  let cpu := jGetOn d (toS "cpu") (.obj [])
  let memory := jGetOn d (toS "memory") (.obj [])
  let videoCard := jGetOn d (toS "video-card") (.obj [])
  let c ← cpuScoreE cpu
  let m ← memScoreE memory
  let g ← gpuScoreE videoCard
  pure (c, m, g)

/-- `estimate_performance` (lines 399–515).  A non-dict configuration raises
at the first `.get`; an empty scenario dict raises `ZeroDivisionError` in
the `overall_rating` computation; both land in the `except` handler which
returns the error result with empty scores. -/
def estimate_performance (configuration : JValue) (scenarios : List Str) : PerfResult :=
  match configuration with
  | .obj d =>
      match perfExtract d with
      | .ok (c, m, g) =>
          let entries := scenarioLoop c m g scenarios
          if entries.isEmpty then estErr
          else ⟨none, entries, overallRating entries⟩
      | .error _ => estErr
  | _ => estErr

/-! ## computer_configurator.py — generate_computer_configuration
(lines 517–569) -/

/-- Outcome of the orchestrator, as far as the budget gate is concerned:
either one of the two terminal budget errors (lines 521–529), or the
function proceeded to consult the oracle (line 532).  The downstream
enrichment of the oracle draft (link attachment, totals) operates on the
draft carried by `proceeded` and is outside the scope of the claims. -/
inductive GenOutcome where
  | errorBudgetLow
  | errorBudgetHigh
  | proceeded (oracleDraft : JValue)

/-- `generate_computer_configuration` restricted to its budget gate: a
budget below 1000 or above 50000 returns the corresponding error before the
oracle (`query_llm_for_configuration`) is ever invoked. -/
def generate_computer_configuration (budget : ℚ) (oracle : Unit → JValue) : GenOutcome :=
  if budget < 1000 then .errorBudgetLow
  else if budget > 50000 then .errorBudgetHigh
  else .proceeded (oracle ())

end Configurator

namespace McpServer

/-! ## mcp_server.py — _check_compatibility_internal (lines 253–400) -/

/-- The three early-return shapes of the input-dispatch section
(lines 263–298). -/
inductive DispatchErr where
  | isNone
  | notParsable
  | notDict
deriving DecidableEq

/-- Input-shape handling shared by `_check_compatibility_internal` and
`_estimate_performance_internal` (lines 263–298 / 417–452): unwrap a
`configuration` key on dict input, JSON-parse string input (and unwrap the
parsed dict likewise), reject `None`, and finally require a dict. -/
def mcpDispatch (parse : Str → Option JValue) (configuration : JValue) :
    Except DispatchErr (List (Str × JValue)) :=
  match configuration with
  | .obj d =>
      match jGet d (toS "configuration") with
      | some inner =>
          match inner with
          | .obj d' => .ok d'
          | _ => .error .notDict
      | none => .ok d
  | .str s =>
      match parse s with
      | none => .error .notParsable
      | some v =>
          match v with
          | .obj d =>
              match jGet d (toS "configuration") with
              | some inner =>
                  match inner with
                  | .obj d' => .ok d'
                  | _ => .error .notDict
              | none => .ok d
          | _ => .error .notDict
  | .null => .error .isNone
  | _ => .error .notDict

/-- The issue tag each dispatch error is reported with. -/
def dispatchIssue : DispatchErr → Issue
  | .isNone => .mcpInputNone
  | .notParsable => .mcpNotParsable
  | .notDict => .mcpNotDict

/-- The error tag of the estimator for each dispatch error. -/
def dispatchPerfErr : DispatchErr → PerfError
  | .isNone => .isNone
  | .notParsable => .notParsable
  | .notDict => .notDict

/-- The vendor rule (lines 340–343): exact-case `"Intel"`/`"AMD"`
containment checks with `and`/`elif` short-circuiting; at most one of the
two issues can fire. -/
def mcpVendorRule (cpuNameJ mbSocketJ : JValue) : Except Unit (Option Issue) := do
  let a ← pyInS (toS "Intel") cpuNameJ
  let cond1 ← if a then pyInS (toS "AMD") mbSocketJ else pure false
  if cond1 then pure (some .mcpIntelOnAmd)
  else do
    let b ← pyInS (toS "AMD") cpuNameJ
    let cond2 ← if b then pyInS (toS "Intel") mbSocketJ else pure false
    pure (if cond2 then some .mcpAmdOnIntel else none)

/-- The memory-type rule (lines 377–379): `memory_type not in
motherboard_memory_support`, guarded by truthiness of both values. -/
def mcpMemTypeRule (memTypeJ mbSupportJ : JValue) : Except Unit (Option Issue) :=
  if memTypeJ.truthy && mbSupportJ.truthy then do
    let b ← pyInJ memTypeJ mbSupportJ
    pure (if b then none else some .mcpMemTypeUnsupported)
  else pure none

/-- The capacity rule (lines 381–384): doubled capacity (assumed dual
channel) compared against the board maximum. -/
def mcpCapacityRule (capJ maxJ : JValue) : Except Unit (Option Issue) := do
  let cap ← asNumQE capJ
  let mx ← asNumQE maxJ
  pure (if cap * 2 > mx then some (.mcpCapacityExceeded (cap * 2) mx) else none)

/-- The frequency rule (lines 386–388) — the only `warnings.append` of this
implementation. -/
def mcpFreqRule (freqJ maxJ : JValue) : Except Unit (Option Warning) := do
  let freq ← asNumQE freqJ
  let mx ← asNumQE maxJ
  pure (if freq > mx then some (.memFreqHigh freq mx) else none)

/-- The rule body of `_check_compatibility_internal` over a dispatched dict
(lines 300–394).  Bare-string components are wrapped as `{"name": s}`; all
field reads are `isinstance`-guarded and therefore never raise; the
string-to-int coercions (lines 327–337, 355–375) are pure.  `cpu_cores` and
`motherboard_memory_channels` are extracted and coerced in the source but
never used afterwards, so they are omitted here. -/
def mcpRules (d : List (Str × JValue)) : Except Unit (List Issue × List Warning) := do
  let cpu := strWrap (jGetOn d (toS "cpu") (.obj []))
  let motherboard := strWrap (jGetOn d (toS "motherboard") (.obj []))
  let memory := strWrap (jGetOn d (toS "memory") (.obj []))
  let _videoCard := strWrap (jGetOn d (toS "video_card") (.obj []))
  let cpuNameJ := guardedGetD cpu (toS "name") (.str [])
  let mbSocketJ := guardedGetD motherboard (toS "socket") (.str [])
  let vendorIssue ← mcpVendorRule cpuNameJ mbSocketJ
  let memTypeJ := guardedGetD memory (toS "type") (.str [])
  let mbSupportJ := guardedGetD motherboard (toS "memory_support") (.str [])
  let memCapJ := coerceIntStr (guardedGetD memory (toS "capacity") (.num 8)) 8
  let memFreqJ := coerceIntStr (guardedGetD memory (toS "frequency") (.num 3200)) 3200
  let mbMaxMemJ := coerceIntStr (guardedGetD motherboard (toS "max_memory") (.num 128)) 128
  let mbMaxFreqJ := coerceIntStr (guardedGetD motherboard (toS "max_memory_frequency") (.num 4800)) 4800
  let memTypeIssue ← mcpMemTypeRule memTypeJ mbSupportJ
  let capIssue ← mcpCapacityRule memCapJ mbMaxMemJ
  let freqWarning ← mcpFreqRule memFreqJ mbMaxFreqJ
  pure (vendorIssue.toList ++ memTypeIssue.toList ++ capIssue.toList,
        freqWarning.toList)

/-- `_check_compatibility_internal` (lines 253–400). -/
def checkInternal (parse : Str → Option JValue) (configuration : JValue) : CompatResult :=
  match mcpDispatch parse configuration with
  | .error e => ⟨false, [dispatchIssue e], []⟩
  | .ok d =>
      match mcpRules d with
      | .ok (issues, warnings) => ⟨issues.isEmpty, issues, warnings⟩
      | .error _ => ⟨false, [.mcpCheckError], []⟩

/-! ## mcp_server.py — _estimate_performance_internal (lines 403–569) -/

/-- CPU score of this implementation (lines 471–485): `cores` (not
`core_count`) defaulting to 4, `base_clock` defaulting to 3.0, no boost
clock and no microarchitecture factor: `cores * base_clock * 10`. -/
def mcpCpuScoreE (cpu : JValue) : Except Unit ℚ := do
  let coresJ := coerceIntStr (guardedGetD cpu (toS "cores") (.num 4)) 4
  let baseJ := coerceFloatStr (guardedGetD cpu (toS "base_clock") (.num 3)) 3
  let cores ← asNumQE coresJ
  let base ← asNumQE baseJ
  pure (cores * base * 10)

/-- Memory score (lines 488–502). -/
def mcpMemScoreE (memory : JValue) : Except Unit ℚ := do
  let capJ := coerceIntStr (guardedGetD memory (toS "capacity") (.num 8)) 8
  let freqJ := coerceIntStr (guardedGetD memory (toS "frequency") (.num 3200)) 3200
  let cap ← asNumQE capJ
  let freq ← asNumQE freqJ
  pure ((cap / 8) * (freq / 3200) * 100)

/-- GPU score (lines 505–519): `vram` default 6 and `base_clock` default
1500, both int-coerced; no chipset multiplier in this implementation. -/
def mcpGpuScoreE (videoCard : JValue) : Except Unit ℚ := do
  let vramJ := coerceIntStr (guardedGetD videoCard (toS "vram") (.num 6)) 6
  let baseJ := coerceIntStr (guardedGetD videoCard (toS "base_clock") (.num 1500)) 1500
  let vram ← asNumQE vramJ
  let base ← asNumQE baseJ
  pure ((vram / 6) * (base / 1500) * 200)

/-- Component-score extraction over a dispatched dict (lines 454–519),
with bare-string wrapping and the `video_card` key spelling. -/
def mcpPerfExtract (d : List (Str × JValue)) : Except Unit (ℚ × ℚ × ℚ) := do
  let cpu := strWrap (jGetOn d (toS "cpu") (.obj []))
  let memory := strWrap (jGetOn d (toS "memory") (.obj []))
  let videoCard := strWrap (jGetOn d (toS "video_card") (.obj []))
  let c ← mcpCpuScoreE cpu
  let m ← mcpMemScoreE memory
  let g ← mcpGpuScoreE videoCard
  pure (c, m, g)

/-- `_estimate_performance_internal` (lines 403–569). -/
def estimateInternal (parse : Str → Option JValue) (configuration : JValue)
    (scenarios : List Str) : PerfResult :=
  match mcpDispatch parse configuration with
  | .error e => ⟨some (dispatchPerfErr e), [], 0⟩
  | .ok d =>
      match mcpPerfExtract d with
      | .ok (c, m, g) =>
          let entries := scenarioLoop c m g scenarios
          if entries.isEmpty then estErr
          else ⟨none, entries, overallRating entries⟩
      | .error _ => estErr

/-! ## mcp_server.py — get_compatibility_score (lines 587–628) -/

/-- A flat name parameter contributes `{"name": s}` when truthy
(lines 604–613). -/
def flatEntry (k : Str) (v : Option Str) : List (Str × JValue) :=
  match v with
  | some s => if s.isEmpty then [] else [(k, .obj [(toS "name", .str s)])]
  | none => []

/-- `get_compatibility_score` (lines 587–628): when no configuration dict is
given, one is assembled from the flat name parameters; the score is
`max(0, 100 - 10*len(warnings))` when compatible and `0` otherwise, with
the full check result attached under `details`. -/
def get_compatibility_score (parse : Str → Option JValue)
    (configuration : Option JValue)
    (cpu motherboard memory videoCard : Option Str) : ScoreResult :=
  let cfg : JValue :=
    match configuration with
    | some c => c
    | none => .obj (flatEntry (toS "cpu") cpu ++ flatEntry (toS "motherboard") motherboard ++
        flatEntry (toS "memory") memory ++ flatEntry (toS "video_card") videoCard)
  let r := checkInternal parse cfg
  ⟨if r.compatible then max 0 (100 - 10 * (r.warnings.length : ℤ)) else 0, r⟩

end McpServer

/-- Spec-side reference definition of the C2 CPU-score formula, written
from the claim's own words: `cores × ((base_clock + boost_clock)/2) × 10`,
multiplied by 1.2 when the microarchitecture mentions Zen or Skylake, 0.9
for Piledriver or Ivy Bridge, 0.7 for K10 or Core, else 1.0. -/
def specCpuScore (cores base boost : ℚ) (micro : Str) : ℚ :=
  cores * ((base + boost) / 2) * 10 *
    (if strContains micro (toS "Zen") || strContains micro (toS "Skylake") then 6/5
     else if strContains micro (toS "Piledriver") || strContains micro (toS "Ivy Bridge") then 9/10
     else if strContains micro (toS "K10") || strContains micro (toS "Core") then 7/10
     else 1)

/-! ## Helper lemmas -/

lemma bind_ok_iff {ε α β : Type} (x : Except ε α) (f : α → Except ε β) (b : β) :
    (x >>= f = .ok b) ↔ ∃ a, x = .ok a ∧ f a = .ok b := by
  cases x <;> simp [Except.bind, Bind.bind]

lemma pure_eq_ok {ε α : Type} (a : α) : (pure a : Except ε α) = .ok a := rfl

lemma compat_mk_compatible_iff (i : List Issue) (w : List Warning) :
    ((⟨i.isEmpty, i, w⟩ : CompatResult).compatible = true ↔
      (⟨i.isEmpty, i, w⟩ : CompatResult).issues = []) := by
  simp [List.isEmpty_iff]

/-- C1: for every input configuration, both `check_compatibility` and the
internal checker behind `get_compatibility_score` return a result whose
`compatible` flag is true exactly when its `issues` list is empty; in
particular the `warnings` list has no influence on the flag. -/
theorem c1_compatible_iff_no_issues (parse : Str → Option JValue) (cfg : JValue) :
    ((Configurator.check_compatibility cfg).compatible = true ↔
      (Configurator.check_compatibility cfg).issues = []) ∧
    ((McpServer.checkInternal parse cfg).compatible = true ↔
      (McpServer.checkInternal parse cfg).issues = []) := by
  constructor
  · unfold Configurator.check_compatibility
    cases cfg <;> try simp
    case obj d =>
      cases h : Configurator.checkBody d with
      | ok p =>
          obtain ⟨i, w⟩ := p
          simp [List.isEmpty_iff]
      | error e => simp
  · unfold McpServer.checkInternal
    cases hd : McpServer.mcpDispatch parse cfg with
    | error e => simp
    | ok d =>
        cases h : McpServer.mcpRules d with
        | ok p =>
            obtain ⟨i, w⟩ := p
            simp [h, List.isEmpty_iff]
        | error e => simp [h]

/-- C4: `get_compatibility_score` runs the internal checker on the given
configuration, attaches the full result under `details`, and scores
`max 0 (100 − 10·len(warnings))` when the result is compatible and `0`
otherwise. -/
theorem c4_score_formula (parse : Str → Option JValue) (cfg : JValue)
    (cpu motherboard memory videoCard : Option Str) :
    McpServer.get_compatibility_score parse (some cfg) cpu motherboard memory videoCard =
      ⟨if (McpServer.checkInternal parse cfg).compatible then
          max 0 (100 - 10 * ((McpServer.checkInternal parse cfg).warnings.length : ℤ))
        else 0,
        McpServer.checkInternal parse cfg⟩ := rfl

/-- C5: the budget gate of `generate_computer_configuration`: budgets below
1000 produce the budget-too-low error, budgets above 50000 the
budget-too-high error, every budget in [1000, 50000] proceeds to the oracle
call, and in the error cases the outcome is independent of the oracle (no
oracle call is attempted). -/
theorem c5_budget_gate (budget : ℚ) (oracle oracle2 : Unit → JValue) :
    (Configurator.generate_computer_configuration budget oracle = .errorBudgetLow ↔
      budget < 1000) ∧
    (Configurator.generate_computer_configuration budget oracle = .errorBudgetHigh ↔
      budget > 50000) ∧
    (Configurator.generate_computer_configuration budget oracle = .proceeded (oracle ()) ↔
      1000 ≤ budget ∧ budget ≤ 50000) ∧
    (budget < 1000 ∨ budget > 50000 →
      Configurator.generate_computer_configuration budget oracle =
        Configurator.generate_computer_configuration budget oracle2) := by
  unfold Configurator.generate_computer_configuration
  split_ifs with h1 h2 <;> simp_all [not_lt] <;> linarith

/-- Witness for C5 at the concrete rejected budget 500: the gate reports
budget-too-low and never consults the oracle. -/
theorem c5_budget_gate_witness :
    (Configurator.generate_computer_configuration 500 (fun _ => .null) = .errorBudgetLow ↔
      (500 : ℚ) < 1000) ∧
    Configurator.generate_computer_configuration 500 (fun _ => .null) =
      Configurator.generate_computer_configuration 500 (fun _ => .num 1) :=
  ⟨(c5_budget_gate 500 (fun _ => .null) (fun _ => .num 1)).1,
    (c5_budget_gate 500 (fun _ => .null) (fun _ => .num 1)).2.2.2 (Or.inl (by norm_num))⟩

lemma checkBody_warnings_len (d : List (Str × JValue)) (i : List Issue) (w : List Warning)
    (h : Configurator.checkBody d = .ok (i, w)) : w.length ≤ 1 := by
  unfold Configurator.checkBody at h
  simp only [bind_ok_iff, pure_eq_ok, Except.ok.injEq, Prod.mk.injEq] at h
  iterate 13 obtain ⟨_, -, h⟩ := h
  obtain ⟨pw, -, h⟩ := h
  iterate 6 obtain ⟨_, -, h⟩ := h
  obtain ⟨-, hw⟩ := h
  rw [← hw]
  cases pw <;> simp

lemma mcpRules_warnings_len (d : List (Str × JValue)) (i : List Issue) (w : List Warning)
    (h : McpServer.mcpRules d = .ok (i, w)) : w.length ≤ 1 := by
  unfold McpServer.mcpRules at h
  simp only [bind_ok_iff, pure_eq_ok, Except.ok.injEq, Prod.mk.injEq] at h
  iterate 3 obtain ⟨_, -, h⟩ := h
  obtain ⟨fw, -, -, hw⟩ := h
  rw [← hw]
  cases fw <;> simp

lemma configurator_check_warnings_len (cfg : JValue) :
    (Configurator.check_compatibility cfg).warnings.length ≤ 1 := by
  unfold Configurator.check_compatibility
  cases cfg <;> try simp
  case obj d =>
    cases h : Configurator.checkBody d with
    | ok p =>
        obtain ⟨i, w⟩ := p
        simpa using checkBody_warnings_len d i w h
    | error e => simp

lemma mcp_check_warnings_len (parse : Str → Option JValue) (cfg : JValue) :
    (McpServer.checkInternal parse cfg).warnings.length ≤ 1 := by
  unfold McpServer.checkInternal
  cases hd : McpServer.mcpDispatch parse cfg with
  | error e => simp
  | ok d =>
      cases h : McpServer.mcpRules d with
      | ok p =>
          obtain ⟨i, w⟩ := p
          simpa [h] using mcpRules_warnings_len d i w h
      | error e => simp [h]

/-- C10: every result of either compatibility checker carries at most one
warning (only the power rule appends warnings in one implementation, only
the memory-frequency rule in the other), and consequently
`get_compatibility_score` always returns exactly 0, 90 or 100. -/
theorem c10_warning_bound_and_score_values (parse : Str → Option JValue) (cfg : JValue)
    (configuration : Option JValue) (cpu motherboard memory videoCard : Option Str) :
    (Configurator.check_compatibility cfg).warnings.length ≤ 1 ∧
    (McpServer.checkInternal parse cfg).warnings.length ≤ 1 ∧
    (McpServer.get_compatibility_score parse configuration cpu motherboard memory
        videoCard).compatibility_score ∈ ([0, 90, 100] : List ℤ) := by
  refine ⟨configurator_check_warnings_len cfg, mcp_check_warnings_len parse cfg, ?_⟩
  unfold McpServer.get_compatibility_score
  set cfg2 : JValue := match configuration with
    | some c => c
    | none => .obj (McpServer.flatEntry (toS "cpu") cpu ++
        McpServer.flatEntry (toS "motherboard") motherboard ++
        McpServer.flatEntry (toS "memory") memory ++
        McpServer.flatEntry (toS "video_card") videoCard) with hcfg2
  have hlen := mcp_check_warnings_len parse cfg2
  rcases Nat.le_one_iff_eq_zero_or_eq_one.mp hlen with h0 | h1 <;>
    cases hc : (McpServer.checkInternal parse cfg2).compatible <;>
    simp_all

/-- C3: neither operation lets an exception escape: every input shape —
`None`, a bare (unparsable) string, a non-dict value, an empty dict with
all keys missing, or a wrongly typed component field — produces the
corresponding well-formed structured result, in both implementations. -/
theorem c3_totality (parse : Str → Option JValue) (s : Str) (scenarios : List Str)
    (hbad : parse s = none) :
    McpServer.checkInternal parse .null = ⟨false, [.mcpInputNone], []⟩ ∧
    McpServer.checkInternal parse (.str s) = ⟨false, [.mcpNotParsable], []⟩ ∧
    McpServer.checkInternal parse (.num 5) = ⟨false, [.mcpNotDict], []⟩ ∧
    McpServer.checkInternal parse (.obj []) = ⟨true, [], []⟩ ∧
    McpServer.estimateInternal parse .null scenarios = ⟨some .isNone, [], 0⟩ ∧
    McpServer.estimateInternal parse (.str s) scenarios = ⟨some .notParsable, [], 0⟩ ∧
    McpServer.estimateInternal parse (.num 5) scenarios = ⟨some .notDict, [], 0⟩ ∧
    (McpServer.estimateInternal parse (.obj []) defaultScenarios).error = none ∧
    Configurator.check_compatibility .null = ⟨false, [.checkError], []⟩ ∧
    Configurator.check_compatibility (.str s) = ⟨false, [.checkError], []⟩ ∧
    Configurator.check_compatibility (.obj [(toS "cpu", .str (toS "i5"))]) =
      ⟨false, [.checkError], []⟩ ∧
    Configurator.check_compatibility (.obj []) = ⟨true, [], []⟩ ∧
    Configurator.estimate_performance .null scenarios = ⟨some .evalError, [], 0⟩ ∧
    (Configurator.estimate_performance (.obj []) defaultScenarios).error = none :=
  ⟨rfl,
    by simp [McpServer.checkInternal, McpServer.mcpDispatch, McpServer.dispatchIssue, hbad],
    rfl,
    by with_unfolding_all rfl,
    rfl,
    by simp [McpServer.estimateInternal, McpServer.mcpDispatch, McpServer.dispatchPerfErr, hbad],
    rfl,
    by with_unfolding_all rfl,
    rfl,
    rfl,
    by with_unfolding_all rfl,
    by with_unfolding_all rfl,
    rfl,
    by with_unfolding_all rfl⟩

/-- Witness for C3 at a concrete failing parse. -/
theorem c3_totality_witness :
    McpServer.checkInternal (fun _ => none) (.str (toS "oops")) =
      ⟨false, [.mcpNotParsable], []⟩ ∧
    McpServer.checkInternal (fun _ => none) .null = ⟨false, [.mcpInputNone], []⟩ :=
  ⟨(c3_totality (fun _ => none) (toS "oops") [] rfl).2.1,
    (c3_totality (fun _ => none) (toS "oops") [] rfl).1⟩

/-- The C2 test component: no cores field, base clock 3 GHz, boost clock
5 GHz, microarchitecture "Zen 3". -/
def c2cpu : JValue :=
  .obj [(toS "base_clock", .num 3), (toS "boost_clock", .num 5),
        (toS "microarchitecture", .str (toS "Zen 3"))]

/-- C2 counterexample: the claim's formula (boost-clock averaging and the
microarchitecture factor) yields 192 on this component — and
`computer_configurator.estimate_performance` indeed computes 192 — but the
cited `_estimate_performance_internal` of mcp_server.py computes
`cores × base_clock × 10 = 120` for the same component, so the claim is
false of that implementation. -/
theorem c2_counterexample :
    McpServer.mcpCpuScoreE c2cpu = .ok 120 ∧
    specCpuScore 4 3 5 (toS "Zen 3") = 192 ∧
    Configurator.cpuScoreE c2cpu = .ok 192 ∧
    (120 : ℚ) ≠ 192 :=
  ⟨by with_unfolding_all rfl, by with_unfolding_all rfl, by with_unfolding_all rfl,
    by norm_num⟩

lemma microMultiplier_str (m : Str) :
    Configurator.microMultiplier (.str m) =
      .ok (if strContains m (toS "Zen") || strContains m (toS "Skylake") then 6/5
        else if strContains m (toS "Piledriver") || strContains m (toS "Ivy Bridge") then 9/10
        else if strContains m (toS "K10") || strContains m (toS "Core") then 7/10
        else 1) := by
  unfold Configurator.microMultiplier
  cases hz : strContains m (toS "Zen") <;>
  cases hs : strContains m (toS "Skylake") <;>
  cases hp : strContains m (toS "Piledriver") <;>
  cases hi : strContains m (toS "Ivy Bridge") <;>
  cases hk : strContains m (toS "K10") <;>
  cases hc : strContains m (toS "Core") <;>
  simp [pyInS, pyInJ, hz, hs, hp, hi, hk, hc, bind, Except.bind, pure, Except.pure]

/-- A CPU component with all four fields set, as read by
computer_configurator.py. -/
def mkCpuC (cores base boost : ℚ) (micro : Str) : JValue :=
  .obj [(toS "core_count", .num cores), (toS "base_clock", .num base),
        (toS "boost_clock", .num boost), (toS "microarchitecture", .str micro)]

/-- A CPU component with the fields read by mcp_server.py. -/
def mkCpuMcp (cores base : ℚ) : JValue :=
  .obj [(toS "cores", .num cores), (toS "base_clock", .num base)]

/-- C2 (amended): the claimed formula — cores × ((base+boost)/2) × 10 times
the microarchitecture factor, with the claimed defaults — is exactly the
CPU score of `computer_configurator.estimate_performance`; the
mcp_server.py internal estimator instead computes cores × base_clock × 10
with no boost-clock averaging and no microarchitecture factor. -/
theorem c2_cpu_score_formula (cores base boost : ℚ) (micro : Str) :
    Configurator.cpuScoreE (mkCpuC cores base boost micro) =
      .ok (specCpuScore cores base boost micro) ∧
    Configurator.cpuScoreE (.obj []) = .ok (specCpuScore 4 3 3 []) ∧
    McpServer.mcpCpuScoreE (mkCpuMcp cores base) = .ok (cores * base * 10) := by
  refine ⟨?_, by with_unfolding_all rfl, ?_⟩
  · have h1 : Configurator.cpuScoreE (mkCpuC cores base boost micro) =
        (Configurator.microMultiplier (.str micro)).map
          (fun mult => cores * ((base + boost) / 2) * 10 * mult) := by
      with_unfolding_all rfl
    rw [h1, microMultiplier_str]
    simp [Except.map, specCpuScore]
  · with_unfolding_all rfl

/-- The C9 configuration family: CPU tdp, GPU tdp and PSU rating. -/
def c9cfg (ct gt psu : ℚ) : JValue :=
  .obj [(toS "cpu", .obj [(toS "tdp", .num ct)]),
        (toS "video-card", .obj [(toS "tdp", .num gt)]),
        (toS "power-supply", .obj [(toS "power", .num psu)])]

lemma tdpAdd_num (acc q : ℚ) :
    Configurator.tdpAdd acc (.obj [(toS "tdp", .num q)]) = .ok (acc + q) := by
  have h : Configurator.tdpAdd acc (.obj [(toS "tdp", .num q)]) =
      if (q != 0) = true then .ok (acc + q) else .ok acc := by
    with_unfolding_all rfl
  rw [h]
  split_ifs with hq
  · rfl
  · simp only [bne_iff_ne, ne_eq, not_not] at hq
    rw [hq, add_zero]

lemma tdpSum_num (ct gt : ℚ) :
    Configurator.tdpSum (.obj [(toS "tdp", .num ct)]) (.obj [(toS "tdp", .num gt)]) =
      .ok (ct + gt) := by
  unfold Configurator.tdpSum
  rw [show (do
      let a ← Configurator.tdpAdd 0 (JValue.obj [(toS "tdp", JValue.num ct)])
      Configurator.tdpAdd a (JValue.obj [(toS "tdp", JValue.num gt)]) :
        Except Unit ℚ) =
      Configurator.tdpAdd 0 (JValue.obj [(toS "tdp", JValue.num ct)]) >>= fun a =>
        Configurator.tdpAdd a (JValue.obj [(toS "tdp", JValue.num gt)]) from rfl]
  rw [tdpAdd_num]
  simp [bind, Except.bind, tdpAdd_num, zero_add]

lemma c9_check (ct gt psu : ℚ) :
    Configurator.check_compatibility (c9cfg ct gt psu) =
      ⟨true, [], (Configurator.powerWarning (ct + gt) psu).toList⟩ := by
  have h : Configurator.check_compatibility (c9cfg ct gt psu) =
      match (Configurator.tdpSum (.obj [(toS "tdp", .num ct)]) (.obj [(toS "tdp", .num gt)]) >>=
          fun total =>
            (Except.ok ([], (Configurator.powerWarning total psu).toList) :
              Except Unit (List Issue × List Warning))) with
      | .ok (i, w) => ⟨i.isEmpty, i, w⟩
      | .error _ => ⟨false, [.checkError], []⟩ := by
    with_unfolding_all rfl
  rw [h, tdpSum_num]
  simp [bind, Except.bind]

/-- C9: with the PSU rating held fixed and positive, raising the CPU or GPU
tdp never removes an existing power warning, and once the draw exceeds 80%
of the rating the result carries exactly one power warning, recommending
`⌊draw / 0.8⌋` watts. -/
theorem c9_power_warning_monotone (ct ct' gt gt' psu : ℚ) (hpsu : 0 < psu)
    (hct : ct ≤ ct') (hgt : gt ≤ gt') :
    ((Configurator.check_compatibility (c9cfg ct gt psu)).warnings ≠ [] →
      (Configurator.check_compatibility (c9cfg ct' gt' psu)).warnings ≠ []) ∧
    (ct' + gt' > psu * (4/5) →
      (Configurator.check_compatibility (c9cfg ct' gt' psu)).warnings =
        [.powerInsufficient (ct' + gt') ⌊(ct' + gt') / (4/5)⌋]) := by
  rw [c9_check, c9_check]
  constructor
  · intro hne
    unfold Configurator.powerWarning at hne ⊢
    split_ifs at hne with h1
    · have h2 : ct' + gt' > psu * (4/5) := by linarith [h1.2]
      rw [if_pos ⟨hpsu, h2⟩]
      simp
    · simp at hne
  · intro hcross
    have hpos : (0 : ℚ) ≤ (ct' + gt') / (4/5) := by
      have : (0 : ℚ) < psu * (4/5) := by positivity
      have : (0 : ℚ) ≤ ct' + gt' := by linarith
      positivity
    unfold Configurator.powerWarning
    rw [if_pos ⟨hpsu, hcross⟩]
    simp [pyInt, hpos, ratFloor_eq]

/-- Witness for C9: draws 200 + 200 W against a 300 W PSU cross the 240 W
threshold and produce the single warning recommending 500 W. -/
theorem c9_power_warning_monotone_witness :
    (Configurator.check_compatibility (c9cfg 200 200 300)).warnings =
      [.powerInsufficient 400 500] ∧
    ((Configurator.check_compatibility (c9cfg 100 100 300)).warnings ≠ [] →
      (Configurator.check_compatibility (c9cfg 200 200 300)).warnings ≠ []) := by
  constructor
  · have h2 := (c9_power_warning_monotone 100 200 100 200 300 (by norm_num) (by norm_num)
      (by norm_num)).2 (by norm_num)
    rw [h2]
    norm_num
  · exact (c9_power_warning_monotone 100 200 100 200 300 (by norm_num) (by norm_num)
      (by norm_num)).1

/-- One step of Python-dict key accumulation restricted to recognised
scenario names. -/
def keysFold (ks : List Str) (l : List Str) : List Str :=
  l.foldl (fun ks s =>
    if isRecognized s && !(ks.any (fun x => x == s)) then ks ++ [s] else ks) ks

/-- First-occurrence deduplication (Python dict key order). -/
def dedupFold (ks : List Str) (l : List Str) : List Str :=
  l.foldl (fun ks s => if ks.any (fun x => x == s) then ks else ks ++ [s]) ks

/-- `firstDedup l` keeps the first occurrence of each element of `l`. -/
def firstDedup (l : List Str) : List Str := dedupFold [] l

/-- C6 counterexample: on a well-formed configuration, a scenario list whose
only entry is unrecognised is not "silently skipped with no error": the
`overall_rating` computation divides by zero, the exception handler fires,
and the result carries an error tag with empty scores. -/
theorem c6_counterexample :
    (Configurator.estimate_performance (.obj []) [toS "foo"]).error = some .evalError ∧
    (Configurator.estimate_performance (.obj []) [toS "foo"]).performance_scores = [] :=
  ⟨by with_unfolding_all rfl, by with_unfolding_all rfl⟩

lemma map_fst_any (d : List (Str × ScenEntry)) (k : Str) :
    (d.map Prod.fst).any (fun x => x == k) = d.any (fun kv => kv.1 == k) := by
  induction d with
  | nil => rfl
  | cons a t ih => simp [ih]

lemma dictInsert_keys (d : List (Str × ScenEntry)) (k : Str) (v : ScenEntry) :
    (dictInsert d k v).map Prod.fst =
      if (d.map Prod.fst).any (fun x => x == k) then d.map Prod.fst
      else d.map Prod.fst ++ [k] := by
  unfold dictInsert
  rw [map_fst_any]
  by_cases h : d.any (fun kv => kv.1 == k)
  · rw [if_pos h, if_pos h, List.map_map]
    apply List.map_congr_left
    intro kv _
    by_cases hk : kv.1 == k
    · simpa [Function.comp, hk] using (eq_of_beq hk).symm
    · simp [Function.comp, hk]
  · rw [if_neg h, if_neg h]
    simp

lemma step_keys_insert (d : List (Str × ScenEntry)) (s : Str) (e : ScenEntry)
    (hr : isRecognized s = true) :
    (dictInsert d s e).map Prod.fst =
      if isRecognized s && !((d.map Prod.fst).any (fun x => x == s)) then
        d.map Prod.fst ++ [s]
      else d.map Prod.fst := by
  rw [dictInsert_keys, hr, Bool.true_and]
  cases ha : (d.map Prod.fst).any (fun x => x == s) <;> simp

lemma scenarioStep_keys (c m g : ℚ) (d : List (Str × ScenEntry)) (s : Str) :
    (scenarioStep c m g d s).map Prod.fst =
      if isRecognized s && !((d.map Prod.fst).any (fun x => x == s)) then
        d.map Prod.fst ++ [s]
      else d.map Prod.fst := by
  unfold scenarioStep
  by_cases h1 : s = officeS
  · rw [if_pos h1]
    exact step_keys_insert d s _ (by rw [h1]; decide)
  · rw [if_neg h1]
    by_cases h2 : s = webS
    · rw [if_pos h2]
      exact step_keys_insert d s _ (by rw [h2]; decide)
    · rw [if_neg h2]
      by_cases h3 : s = g1080S
      · rw [if_pos h3]
        exact step_keys_insert d s _ (by rw [h3]; decide)
      · rw [if_neg h3]
        by_cases h4 : s = g1440S
        · rw [if_pos h4]
          exact step_keys_insert d s _ (by rw [h4]; decide)
        · rw [if_neg h4]
          by_cases h5 : s = g4kS
          · rw [if_pos h5]
            exact step_keys_insert d s _ (by rw [h5]; decide)
          · rw [if_neg h5]
            by_cases h6 : s = videoS
            · rw [if_pos h6]
              exact step_keys_insert d s _ (by rw [h6]; decide)
            · rw [if_neg h6]
              have hr : isRecognized s = false := by
                simp only [isRecognized, Bool.or_eq_false_iff, beq_eq_false_iff_ne, ne_eq]
                exact ⟨⟨⟨⟨⟨h1, h2⟩, h3⟩, h4⟩, h5⟩, h6⟩
              rw [hr]
              simp

lemma scenarioLoop_keys_general (c m g : ℚ) (l : List Str) (d : List (Str × ScenEntry)) :
    (l.foldl (scenarioStep c m g) d).map Prod.fst = keysFold (d.map Prod.fst) l := by
  induction l generalizing d with
  | nil => rfl
  | cons s t ih =>
      rw [List.foldl_cons]
      unfold keysFold
      rw [List.foldl_cons]
      rw [ih (scenarioStep c m g d s), scenarioStep_keys]
      rfl

lemma keysFold_eq_dedupFold (ks : List Str) (l : List Str) :
    keysFold ks l = dedupFold ks (l.filter isRecognized) := by
  induction l generalizing ks with
  | nil => rfl
  | cons s t ih =>
      unfold keysFold dedupFold
      rw [List.foldl_cons]
      by_cases h : isRecognized s
      · rw [List.filter_cons_of_pos h, List.foldl_cons]
        have : (if isRecognized s && !(ks.any (fun x => x == s)) then ks ++ [s] else ks) =
            (if ks.any (fun x => x == s) then ks else ks ++ [s]) := by
          rw [h, Bool.true_and]
          by_cases ha : ks.any (fun x => x == s) <;> simp [ha]
        rw [this]
        exact ih _
      · rw [List.filter_cons_of_neg h]
        have : (if isRecognized s && !(ks.any (fun x => x == s)) then ks ++ [s] else ks) = ks := by
          simp [h]
        rw [this]
        exact ih ks

lemma dedupFold_ne_nil (l : List Str) (ks : List Str) (h : ks ≠ [] ∨ l ≠ []) :
    dedupFold ks l ≠ [] := by
  induction l generalizing ks with
  | nil =>
      rcases h with h | h
      · exact h
      · exact absurd rfl h
  | cons s t ih =>
      unfold dedupFold
      rw [List.foldl_cons]
      apply ih
      left
      by_cases ha : ks.any (fun x => x == s)
      · rw [if_pos ha]
        rcases h with h | _
        · exact h
        · intro hnil
          rw [hnil] at ha
          simp at ha
      · rw [if_neg ha]
        simp

/-- C6 (amended): unrecognised scenario names are silently skipped —
provided the component-score extraction succeeds and at least one scenario
in the list is recognised, the result carries no error and its
`performance_scores` keys are exactly the recognised scenarios of the list
(first occurrences, in order); with no recognised scenario the
`overall_rating` division by zero is caught and an error result with empty
scores is returned instead. -/
theorem c6_unrecognized_skipped (cfg : JValue) (scenarios : List Str)
    (d : List (Str × JValue)) (t : ℚ × ℚ × ℚ)
    (hcfg : cfg = .obj d) (hex : Configurator.perfExtract d = .ok t)
    (hrec : scenarios.filter isRecognized ≠ []) :
    (Configurator.estimate_performance cfg scenarios).error = none ∧
    (Configurator.estimate_performance cfg scenarios).performance_scores.map Prod.fst =
      firstDedup (scenarios.filter isRecognized) := by
  subst hcfg
  obtain ⟨c, mq, g⟩ := t
  have hkeys : (scenarioLoop c mq g scenarios).map Prod.fst =
      firstDedup (scenarios.filter isRecognized) := by
    unfold scenarioLoop firstDedup
    rw [scenarioLoop_keys_general]
    exact keysFold_eq_dedupFold [] scenarios
  have hne : (scenarioLoop c mq g scenarios).isEmpty = false := by
    have h1 : firstDedup (scenarios.filter isRecognized) ≠ [] :=
      dedupFold_ne_nil _ [] (Or.inr hrec)
    rw [← hkeys] at h1
    rcases hloop : scenarioLoop c mq g scenarios with _ | ⟨a, b⟩
    · rw [hloop] at h1
      simp at h1
    · rfl
  refine ⟨?_, ?_⟩ <;>
    simp only [Configurator.estimate_performance, hex, hne, Bool.false_eq_true, if_false] <;>
    first
      | rfl
      | exact hkeys

/-- Witness for C6 on a mixed scenario list: the bogus name is skipped, the
office entry survives, no error is raised. -/
theorem c6_unrecognized_skipped_witness :
    (Configurator.estimate_performance (.obj []) [officeS, toS "bogus"]).error = none ∧
    (Configurator.estimate_performance (.obj []) [officeS, toS "bogus"]).performance_scores.map
        Prod.fst = firstDedup ([officeS, toS "bogus"].filter isRecognized) :=
  c6_unrecognized_skipped (.obj []) [officeS, toS "bogus"] [] (120, 100, 300) rfl
    (by with_unfolding_all rfl) (by decide)

/-- The C7 test configuration: a (nonsensical but accepted) negative core
count. -/
def c7cfg : JValue := .obj [(toS "cpu", .obj [(toS "core_count", .num (-10))])]

/-- C7 counterexample: with core_count −10 the office scenario stores score
−14 — the claim that no stored score is ever negative is false. -/
theorem c7_counterexample :
    Configurator.estimate_performance c7cfg [officeS] =
      ⟨none, [(officeS, ⟨-14, .choppy⟩)], -14⟩ ∧ (-14 : ℤ) < 0 :=
  ⟨by with_unfolding_all rfl, by norm_num⟩

lemma pyRound_nonneg (q : ℚ) (h : 0 ≤ q) : 0 ≤ pyRound q := by
  have hf : 0 ≤ ratFloor q := by
    rw [ratFloor_eq]
    exact Int.floor_nonneg.mpr h
  simp only [pyRound]
  split_ifs <;> omega

lemma dictInsert_mem (d : List (Str × ScenEntry)) (k : Str) (v : ScenEntry)
    (kv : Str × ScenEntry) (h : kv ∈ dictInsert d k v) : kv ∈ d ∨ kv = (k, v) := by
  unfold dictInsert at h
  split_ifs at h with hc
  · obtain ⟨a, ha, hae⟩ := List.mem_map.mp h
    by_cases hk : a.1 == k
    · right
      rw [← hae]
      simp [hk]
    · left
      rw [← hae]
      simpa [hk] using ha
  · rcases List.mem_append.mp h with h | h
    · exact Or.inl h
    · right
      simpa using h

lemma scenarioStep_mem (c m g : ℚ) (d : List (Str × ScenEntry)) (s : Str)
    (kv : Str × ScenEntry) (h : kv ∈ scenarioStep c m g d s) :
    kv ∈ d ∨ (kv.2.score ≤ 100 ∧ (0 ≤ c → 0 ≤ m → 0 ≤ g → 0 ≤ kv.2.score)) := by
  unfold scenarioStep at h
  split_ifs at h
  all_goals
    first
      | (exact Or.inl h)
      | (rcases dictInsert_mem _ _ _ _ h with h' | h'
         · exact Or.inl h'
         · right
           rw [h']
           simp only [mkEntry]
           exact ⟨min_le_left _ _,
             fun hc hm hg => le_min (by norm_num) (pyRound_nonneg _ (by positivity))⟩)

lemma foldl_step_mem (c m g : ℚ) (l : List Str) (d : List (Str × ScenEntry))
    (kv : Str × ScenEntry) (h : kv ∈ l.foldl (scenarioStep c m g) d) :
    kv ∈ d ∨ (kv.2.score ≤ 100 ∧ (0 ≤ c → 0 ≤ m → 0 ≤ g → 0 ≤ kv.2.score)) := by
  induction l generalizing d with
  | nil => exact Or.inl h
  | cons s t ih =>
      rw [List.foldl_cons] at h
      rcases ih _ h with h' | h'
      · exact scenarioStep_mem c m g d s kv h'
      · exact Or.inr h'

/-- C7 (amended): every stored scenario score is at most 100 (the
`min(100, …)` clamp), and it is non-negative whenever the three extracted
component scores are non-negative; with negative component inputs the
stored score can be negative, as the counterexample shows. -/
theorem c7_score_clamped (cfg : JValue) (scen : List Str) (s : Str) (e : ScenEntry)
    (hmem : (s, e) ∈ (Configurator.estimate_performance cfg scen).performance_scores) :
    e.score ≤ 100 ∧
    (∀ dd c m g, cfg = JValue.obj dd → Configurator.perfExtract dd = .ok (c, m, g) →
      0 ≤ c → 0 ≤ m → 0 ≤ g → 0 ≤ e.score) := by
  cases cfg with
  | null => simp [Configurator.estimate_performance, estErr] at hmem
  | bool b => simp [Configurator.estimate_performance, estErr] at hmem
  | num q => simp [Configurator.estimate_performance, estErr] at hmem
  | str st => simp [Configurator.estimate_performance, estErr] at hmem
  | arr xs => simp [Configurator.estimate_performance, estErr] at hmem
  | obj dd0 =>
      simp only [Configurator.estimate_performance] at hmem
      cases hx : Configurator.perfExtract dd0 with
      | error u =>
          rw [hx] at hmem
          simp [estErr] at hmem
      | ok t =>
          obtain ⟨c, m, g⟩ := t
          rw [hx] at hmem
          by_cases hie : (scenarioLoop c m g scen).isEmpty
          · simp [hie, estErr] at hmem
          · simp only [hie, Bool.false_eq_true, if_false] at hmem
            have hP := foldl_step_mem c m g scen [] (s, e) hmem
            rcases hP with hP | hP
            · simp at hP
            · refine ⟨hP.1, fun dd c' m' g' hcfg hex hc hm hg => ?_⟩
              cases hcfg
              rw [hx] at hex
              injection hex with hex
              obtain ⟨hc', hm', hg'⟩ : c = c' ∧ m = m' ∧ g = g' := by
                simpa [Prod.mk.injEq] using hex
              subst hc'
              subst hm'
              subst hg'
              exact hP.2 hc hm hg

/-- Witness for C7: the office score of the default configuration is 11,
within both bounds. -/
theorem c7_score_clamped_witness :
    ((officeS, (⟨11, .choppy⟩ : ScenEntry)) ∈
        (Configurator.estimate_performance (.obj []) [officeS]).performance_scores) ∧
    (⟨11, .choppy⟩ : ScenEntry).score ≤ 100 ∧ 0 ≤ (⟨11, .choppy⟩ : ScenEntry).score := by
  have hmem : (officeS, (⟨11, .choppy⟩ : ScenEntry)) ∈
      (Configurator.estimate_performance (.obj []) [officeS]).performance_scores := by
    with_unfolding_all decide
  exact ⟨hmem, (c7_score_clamped _ _ _ _ hmem).1,
    (c7_score_clamped _ _ _ _ hmem).2 [] 120 100 300 rfl (by with_unfolding_all rfl)
      (by norm_num) (by norm_num) (by norm_num)⟩

/- Lower-casing every string value of a configuration (keys untouched):
two configurations related by `jLowerVals a = jLowerVals b` differ only in
the letter case of their string fields. -/
mutual
def jLowerVals : JValue → JValue
  | .null => .null
  | .bool b => .bool b
  | .num q => .num q
  | .str s => .str (lowerStr s)
  | .arr xs => .arr (jLowerValsList xs)
  | .obj kvs => .obj (jLowerValsObj kvs)
def jLowerValsList : List JValue → List JValue
  | [] => []
  | x :: xs => jLowerVals x :: jLowerValsList xs
def jLowerValsObj : List (Str × JValue) → List (Str × JValue)
  | [] => []
  | (k, v) :: kvs => (k, jLowerVals v) :: jLowerValsObj kvs
end

/-- C8 test configuration: ATX board inside a "Mini ITX" case. -/
def c8cfgA : JValue :=
  .obj [(toS "motherboard", .obj [(toS "form_factor", .str (toS "ATX"))]),
        (toS "case", .obj [(toS "form_factor", .str (toS "Mini ITX"))])]

/-- The same configuration with the case's form factor upper-cased. -/
def c8cfgB : JValue :=
  .obj [(toS "motherboard", .obj [(toS "form_factor", .str (toS "ATX"))]),
        (toS "case", .obj [(toS "form_factor", .str (toS "MINI ITX"))])]

/-- C8 counterexample: the two configurations differ only in letter case,
yet `check_compatibility` reports a form-factor issue for one and a clean
result for the other — the form-factor rule's dict lookup is exact-case,
so not all string comparisons of the rules are case-insensitive. -/
theorem c8_counterexample :
    jLowerVals c8cfgA = jLowerVals c8cfgB ∧
    Configurator.check_compatibility c8cfgA =
      ⟨false, [.caseTooSmall (toS "Mini ITX") (toS "ATX")], []⟩ ∧
    Configurator.check_compatibility c8cfgB = ⟨true, [], []⟩ :=
  ⟨by with_unfolding_all rfl, by with_unfolding_all rfl, by with_unfolding_all rfl⟩

lemma upperChar_lowerChar (c : Char) : upperChar (lowerChar c) = upperChar c := by
  by_cases h1 : c = 'A'
  · subst h1
    decide
  by_cases h2 : c = 'B'
  · subst h2
    decide
  by_cases h3 : c = 'C'
  · subst h3
    decide
  by_cases h4 : c = 'D'
  · subst h4
    decide
  by_cases h5 : c = 'E'
  · subst h5
    decide
  by_cases h6 : c = 'F'
  · subst h6
    decide
  by_cases h7 : c = 'G'
  · subst h7
    decide
  by_cases h8 : c = 'H'
  · subst h8
    decide
  by_cases h9 : c = 'I'
  · subst h9
    decide
  by_cases h10 : c = 'J'
  · subst h10
    decide
  by_cases h11 : c = 'K'
  · subst h11
    decide
  by_cases h12 : c = 'L'
  · subst h12
    decide
  by_cases h13 : c = 'M'
  · subst h13
    decide
  by_cases h14 : c = 'N'
  · subst h14
    decide
  by_cases h15 : c = 'O'
  · subst h15
    decide
  by_cases h16 : c = 'P'
  · subst h16
    decide
  by_cases h17 : c = 'Q'
  · subst h17
    decide
  by_cases h18 : c = 'R'
  · subst h18
    decide
  by_cases h19 : c = 'S'
  · subst h19
    decide
  by_cases h20 : c = 'T'
  · subst h20
    decide
  by_cases h21 : c = 'U'
  · subst h21
    decide
  by_cases h22 : c = 'V'
  · subst h22
    decide
  by_cases h23 : c = 'W'
  · subst h23
    decide
  by_cases h24 : c = 'X'
  · subst h24
    decide
  by_cases h25 : c = 'Y'
  · subst h25
    decide
  by_cases h26 : c = 'Z'
  · subst h26
    decide
  have hl : lowerChar c = c := by
    unfold lowerChar
    rw [if_neg h1, if_neg h2, if_neg h3, if_neg h4, if_neg h5, if_neg h6, if_neg h7, if_neg h8, if_neg h9, if_neg h10, if_neg h11, if_neg h12, if_neg h13, if_neg h14, if_neg h15, if_neg h16, if_neg h17, if_neg h18, if_neg h19, if_neg h20, if_neg h21, if_neg h22, if_neg h23, if_neg h24, if_neg h25, if_neg h26]
  rw [hl]

lemma upperStr_lowerStr (s : Str) : upperStr (lowerStr s) = upperStr s := by
  unfold upperStr lowerStr
  rw [List.map_map]
  apply List.map_congr_left
  intro c _
  exact upperChar_lowerChar c

lemma upperStr_congr_of_lower (a b : Str) (h : lowerStr a = lowerStr b) :
    upperStr a = upperStr b := by
  rw [← upperStr_lowerStr a, ← upperStr_lowerStr b, h]

/-- C8 (amended): the socket-family rule, the vendor cross-check and the
string-form memory-generation rule are case-insensitive — configurations
whose corresponding fields agree up to letter case fire them identically
(the issue messages still echo the original case) — but the form-factor
rule is exact-case, as the counterexample shows. -/
theorem c8_case_insensitive_rules (cs cs' ms ms' n n' mt mt' sup sup' : Str)
    (h1 : lowerStr cs = lowerStr cs') (h2 : lowerStr ms = lowerStr ms')
    (h3 : lowerStr n = lowerStr n') (h4 : lowerStr mt = lowerStr mt')
    (h5 : lowerStr sup = lowerStr sup') :
    Configurator.socketRuleFires cs ms = Configurator.socketRuleFires cs' ms' ∧
    Configurator.vendorRuleFires (lowerStr n) (lowerStr ms) =
      Configurator.vendorRuleFires (lowerStr n') (lowerStr ms') ∧
    Configurator.memoryRuleFires mt sup = Configurator.memoryRuleFires mt' sup' := by
  refine ⟨?_, ?_, ?_⟩
  · unfold Configurator.socketRuleFires
    rw [h1, h2]
  · rw [h3, h2]
  · unfold Configurator.memoryRuleFires
    rw [upperStr_congr_of_lower mt mt' h4, upperStr_congr_of_lower sup sup' h5]

/-- Witness for C8's amended case-insensitivity at concrete strings. -/
theorem c8_case_insensitive_rules_witness :
    Configurator.socketRuleFires (toS "AM4") (toS "B450") =
      Configurator.socketRuleFires (toS "am4") (toS "b450") ∧
    Configurator.memoryRuleFires (toS "ddr4") (toS "DDR4") =
      Configurator.memoryRuleFires (toS "DDR4") (toS "ddr4") :=
  ⟨(c8_case_insensitive_rules (toS "AM4") (toS "am4") (toS "B450") (toS "b450")
      (toS "x") (toS "x") (toS "ddr4") (toS "DDR4") (toS "DDR4") (toS "ddr4")
      (by decide) (by decide) (by decide) (by decide) (by decide)).1,
    (c8_case_insensitive_rules (toS "AM4") (toS "am4") (toS "B450") (toS "b450")
      (toS "x") (toS "x") (toS "ddr4") (toS "DDR4") (toS "DDR4") (toS "ddr4")
      (by decide) (by decide) (by decide) (by decide) (by decide)).2.2⟩
